import Mathlib

/-!
Verification of the stratstats statistics tracker (src/stratstats.py).

The development shallowly embeds the program's store-facing logic:

* the SQLite store is modelled as Lean lists of record structures; SQL
  statements become list operations executed in the same order as the
  Python statements;
* Python integers are `Int`; the fractional innings-pitched fields
  (SQLite REAL / Python float) are modelled as exact rationals `ℚ`, and
  Python's fixed-point float formatting `f"{x:.Nf}"` is modelled as exact
  decimal rounding of the rational value with ties to even (Python's
  round-half-even), rendered by `fmtScaled`;
* fallible store operations return `Except`; a raised Python exception is
  an `Except.error`.
-/

namespace StratStats

/-! ## Python string/number formatting primitives -/

/-- Left-pad a string with spaces to width `w` (Python right-aligned
field `f"{x:w}"`, `f"{x:w.df}"`). -/
def padLeft (w : Nat) (s : String) : String :=
  if s.length < w then String.mk (List.replicate (w - s.length) ' ') ++ s else s

/-- Right-pad a string with spaces to width `w` (Python left-aligned
field `f"{x:<w}"`). -/
def padRight (w : Nat) (s : String) : String :=
  if s.length < w then s ++ String.mk (List.replicate (w - s.length) ' ') else s

/-- Zero-pad the decimal rendering of `n` to `d` digits (fractional part
of a fixed-point number). -/
def zeroPad (d : Nat) (n : Nat) : String :=
  let s := toString n
  if s.length < d then String.mk (List.replicate (d - s.length) '0') ++ s else s

/-- Render `m / 10^d` in fixed-point with exactly `d` fractional digits:
the shape Python's `f"{x:.df}"` produces once `x` has been rounded to an
integer number `m` of `10^-d` units. -/
def fmtScaled (d : Nat) (m : ℤ) : String :=
  let p : Nat := 10 ^ d
  let n : Nat := m.natAbs
  (if m < 0 then "-" else "") ++ toString (n / p) ++ "." ++ zeroPad d (n % p)

/-- Python's `str.lstrip('0')`: drop every leading `'0'` character. -/
def lstrip0 (s : String) : String :=
  String.mk (s.data.dropWhile (fun c => c == '0'))

/-- Round a rational to the nearest integer, ties to even: the rounding
Python applies when formatting a float with `f"{x:.df}"` (modelled on the
exact value). -/
def rhe (q : ℚ) : ℤ :=
  if Int.fract q < 1/2 then ⌊q⌋
  else if 1/2 < Int.fract q then ⌊q⌋ + 1
  else if ⌊q⌋ % 2 = 0 then ⌊q⌋ else ⌊q⌋ + 1

/-- Integer-arithmetic form of `rhe` on the fraction `a / b` (for
`0 < b`); used to evaluate the rounding pipeline on concrete inputs. -/
def rheInt (a b : ℤ) : ℤ :=
  let q := a / b
  let r := a % b
  if 2 * r < b then q else if b < 2 * r then q + 1 else if q % 2 = 0 then q else q + 1

/-- Python `f"{q:.df}"` on the exact value `q`: round to `d` decimals
(ties to even) and render fixed-point. -/
def pyFixed (d : Nat) (q : ℚ) : String :=
  fmtScaled d (rhe ((10 ^ d : ℚ) * q))

theorem floor_cast_div (a b : ℤ) (hb : 0 < b) : ⌊(a : ℚ) / (b : ℚ)⌋ = a / b := by
  have hbq : (0 : ℚ) < (b : ℚ) := by exact_mod_cast hb
  rw [Int.floor_eq_iff]
  constructor
  · rw [le_div_iff₀ hbq]
    exact_mod_cast Int.ediv_mul_le a hb.ne'
  · rw [div_lt_iff₀ hbq]
    exact_mod_cast Int.lt_ediv_add_one_mul_self a hb

theorem fract_cast_div (a b : ℤ) (hb : 0 < b) :
    Int.fract ((a : ℚ) / (b : ℚ)) = ((a % b : ℤ) : ℚ) / (b : ℚ) := by
  have hbq : ((b : ℚ)) ≠ 0 := by
    have : (0 : ℚ) < (b : ℚ) := by exact_mod_cast hb
    exact this.ne'
  rw [Int.fract, floor_cast_div a b hb, Int.emod_def]
  push_cast
  field_simp

theorem rhe_div (a b : ℤ) (hb : 0 < b) : rhe ((a : ℚ) / (b : ℚ)) = rheInt a b := by
  have hbq : (0 : ℚ) < (b : ℚ) := by exact_mod_cast hb
  have key1 : (Int.fract ((a : ℚ) / (b : ℚ)) < 1/2) ↔ 2 * (a % b) < b := by
    rw [fract_cast_div a b hb, div_lt_div_iff₀ hbq (by norm_num : (0:ℚ) < 2)]
    constructor
    · intro h
      have h3 : ((2 * (a % b) : ℤ) : ℚ) < ((b : ℤ) : ℚ) := by push_cast; linarith
      exact_mod_cast h3
    · intro h
      have h3 : ((2 * (a % b) : ℤ) : ℚ) < ((b : ℤ) : ℚ) := by exact_mod_cast h
      push_cast at h3
      linarith
  have key2 : (1/2 < Int.fract ((a : ℚ) / (b : ℚ))) ↔ b < 2 * (a % b) := by
    rw [fract_cast_div a b hb, div_lt_div_iff₀ (by norm_num : (0:ℚ) < 2) hbq]
    constructor
    · intro h
      have h3 : ((b : ℤ) : ℚ) < ((2 * (a % b) : ℤ) : ℚ) := by push_cast; linarith
      exact_mod_cast h3
    · intro h
      have h3 : ((b : ℤ) : ℚ) < ((2 * (a % b) : ℤ) : ℚ) := by exact_mod_cast h
      push_cast at h3
      linarith
  unfold rhe rheInt
  simp only [key1, key2, floor_cast_div a b hb]

theorem rhe_dist_le_half (q : ℚ) : |q - rhe q| ≤ 1/2 := by
  have h0 : (0 : ℚ) ≤ Int.fract q := Int.fract_nonneg q
  have h1 : Int.fract q < 1 := Int.fract_lt_one q
  have hq : q - (⌊q⌋ : ℚ) = Int.fract q := rfl
  unfold rhe
  split_ifs with hlt hgt heven
  · rw [abs_of_nonneg (by linarith [Int.fract_nonneg q] : (0:ℚ) ≤ q - (⌊q⌋:ℚ))]
    linarith
  · push_cast
    rw [abs_of_nonpos (by linarith : q - ((⌊q⌋:ℚ) + 1) ≤ 0)]
    linarith
  · have heq : Int.fract q = 1/2 := le_antisymm (not_lt.mp hgt) (not_lt.mp hlt)
    rw [abs_of_nonneg (by linarith : (0:ℚ) ≤ q - (⌊q⌋:ℚ))]
    linarith
  · have heq : Int.fract q = 1/2 := le_antisymm (not_lt.mp hgt) (not_lt.mp hlt)
    push_cast
    rw [abs_of_nonpos (by linarith : q - ((⌊q⌋:ℚ) + 1) ≤ 0)]
    linarith

theorem rhe_nearest (q : ℚ) (m : ℤ) : |q - rhe q| ≤ |q - m| := by
  by_cases hm : m = rhe q
  · rw [hm]
  · have hge : (1 : ℚ) ≤ |(rhe q : ℚ) - (m : ℚ)| := by
      have h1 : (1 : ℤ) ≤ |rhe q - m| := Int.one_le_abs (sub_ne_zero.mpr (fun h => hm h.symm))
      have h2 : ((1 : ℤ) : ℚ) ≤ ((|rhe q - m| : ℤ) : ℚ) := by exact_mod_cast h1
      rw [Int.cast_abs] at h2
      push_cast at h2
      exact h2
    have htri : |(rhe q : ℚ) - m| - |q - rhe q| ≤ |q - m| := by
      have h2 := abs_sub_abs_le_abs_sub ((rhe q : ℚ) - m) ((rhe q : ℚ) - q)
      have h3 : ((rhe q : ℚ) - m) - ((rhe q : ℚ) - q) = q - m := by ring
      rw [h3] at h2
      have h4 : |(rhe q : ℚ) - q| = |q - rhe q| := abs_sub_comm _ _
      linarith [h2, h4.le, h4.ge]
    have hhalf := rhe_dist_le_half q
    linarith

/-! ## Python `sorted` and string comparison -/

/-- Lexicographic comparison of character lists by code point, the order
Python uses to compare `str` values. -/
def charListLe : List Char → List Char → Bool
  | [], _ => true
  | _ :: _, [] => false
  | a :: as, b :: bs =>
    if a.toNat < b.toNat then true
    else if b.toNat < a.toNat then false
    else charListLe as bs

/-- Python `<=` on strings (code-point lexicographic). -/
def strLe (a b : String) : Bool := charListLe a.data b.data

/-- Insert `x` into `l` before the first element not `le`-below it
(stable insertion step). -/
def insertLE (le : α → α → Bool) (x : α) : List α → List α
  | [] => [x]
  | y :: ys => if le x y then x :: y :: ys else y :: insertLE le x ys

/-- Stable ascending sort, modelling Python's `sorted(..., key=...)`. -/
def pySorted (le : α → α → Bool) : List α → List α
  | [] => []
  | x :: xs => insertLE le x (pySorted le xs)

theorem insertLE_perm (le : α → α → Bool) (x : α) (l : List α) :
    (insertLE le x l).Perm (x :: l) := by
  induction l with
  | nil => exact List.Perm.refl _
  | cons y ys ih =>
    simp only [insertLE]
    by_cases h : le x y
    · simp [h]
    · simp only [h, Bool.false_eq_true, if_false]
      exact ((ih.cons y).trans (List.Perm.swap x y ys))

theorem pySorted_perm (le : α → α → Bool) (l : List α) : (pySorted le l).Perm l := by
  induction l with
  | nil => exact List.Perm.refl _
  | cons x xs ih => exact (insertLE_perm le x (pySorted le xs)).trans (ih.cons x)

/-! ## Data model: tables as lists of rows

The `hitters` schema is in `MainWindow.create_tables`; its counter tuple
order below is the order of every `SELECT`/`INSERT`/`UPDATE` in
`MainWindow.saveData` (games, ab, aba, hits, runs, doubles, triples, hr,
rbi, k, bb, sb, cs, gidp, err). -/

structure HitterStats where
  games : ℤ
  ab : ℤ
  aba : ℤ
  hits : ℤ
  runs : ℤ
  doubles : ℤ
  triples : ℤ
  hr : ℤ
  rbi : ℤ
  k : ℤ
  bb : ℤ
  sb : ℤ
  cs : ℤ
  gidp : ℤ
  err : ℤ
  deriving DecidableEq

/-- The counter tuple of the hitter branch of `saveData`, in SELECT
order. -/
def HitterStats.toList (s : HitterStats) : List ℤ :=
  [s.games, s.ab, s.aba, s.hits, s.runs, s.doubles, s.triples, s.hr, s.rbi,
   s.k, s.bb, s.sb, s.cs, s.gidp, s.err]

/-- Pitcher counters; `ip`/`ipa` are the fractional innings fields
(floats in the source, exact rationals here). Tuple order is the pitcher
branch of `saveData`: games, st, ip, ipa, wins, losses, saves, holds,
hits, er, hr, k, bb, wp, err. -/
structure PitcherStats where
  games : ℤ
  st : ℤ
  ip : ℚ
  ipa : ℚ
  wins : ℤ
  losses : ℤ
  saves : ℤ
  holds : ℤ
  hits : ℤ
  er : ℤ
  hr : ℤ
  k : ℤ
  bb : ℤ
  wp : ℤ
  err : ℤ
  deriving DecidableEq

/-- The counter tuple of the pitcher branch of `saveData`, in SELECT
order, as the Python values compared by `zip` (ints and floats compare
by value, so everything is cast into `ℚ`). -/
def PitcherStats.toList (s : PitcherStats) : List ℚ :=
  [(s.games : ℚ), (s.st : ℚ), s.ip, s.ipa, (s.wins : ℚ), (s.losses : ℚ),
   (s.saves : ℚ), (s.holds : ℚ), (s.hits : ℚ), (s.er : ℚ), (s.hr : ℚ),
   (s.k : ℚ), (s.bb : ℚ), (s.wp : ℚ), (s.err : ℚ)]

structure HitterRow where
  team_id : ℤ
  first_name : String
  last_name : String
  s : HitterStats
  deriving DecidableEq

structure PitcherRow where
  team_id : ℤ
  first_name : String
  last_name : String
  s : PitcherStats
  deriving DecidableEq

structure Team where
  id : ℤ
  team_name : String
  deriving DecidableEq

/-- The three tables of the store. -/
structure DB where
  teams : List Team
  hitters : List HitterRow
  pitchers : List PitcherRow
  deriving DecidableEq

/-! ## The upsert path: `MainWindow.saveData` -/

/-- `MainWindow.hasChanges`: zip the two records and report whether any
position differs. -/
def hasChanges {α : Type} [DecidableEq α] (original current : List α) : Bool :=
  (original.zip current).any (fun p => decide (¬ p.1 = p.2))

/-- The inline guard of `saveData`: some submitted value is zero where
the stored value is non-zero (`current_value == 0 and original_value != 0`). -/
def zeroGuard {α : Type} [DecidableEq α] [OfNat α 0] (original current : List α) : Bool :=
  (original.zip current).any (fun p => decide (p.2 = 0) && decide (¬ p.1 = 0))

/-- Outcome of one `saveData` call, as signalled by `successLabel` (or by
an uncaught sqlite3.IntegrityError from the UNIQUE constraint). -/
inductive SaveAction where
  | noTeam
  | rejected
  | updated
  | inserted
  | noop
  | integrityError
  deriving DecidableEq

/-- The WHERE clause `team_id = ? AND first_name = ? AND last_name = ?`. -/
def hitterKey (tid : ℤ) (fn ln : String) (r : HitterRow) : Bool :=
  decide (r.team_id = tid) && decide (r.first_name = fn) && decide (r.last_name = ln)

def pitcherKey (tid : ℤ) (fn ln : String) (r : PitcherRow) : Bool :=
  decide (r.team_id = tid) && decide (r.first_name = fn) && decide (r.last_name = ln)

/-- Hitter branch of `MainWindow.saveData` (store effect): look up the
record by (team, first, last); reject wholesale if any submitted counter
is zero where the stored one is non-zero; update all fields if any
differ; insert when absent. The INSERT is subject to the schema's
`UNIQUE (first_name, last_name)` constraint (see `create_tables`), which
raises sqlite3.IntegrityError on a duplicate name pair from any team. -/
def saveHitter (hs : List HitterRow) (tid : ℤ) (fn ln : String) (new : HitterStats) :
    List HitterRow × SaveAction :=
  match hs.find? (hitterKey tid fn ln) with
  | some original =>
    if zeroGuard original.s.toList new.toList then (hs, .rejected)
    else if hasChanges original.s.toList new.toList then
      (hs.map (fun r => if hitterKey tid fn ln r then { r with s := new } else r), .updated)
    else (hs, .noop)
  | none =>
    if hs.any (fun r => decide (r.first_name = fn) && decide (r.last_name = ln)) then
      (hs, .integrityError)
    else (hs ++ [⟨tid, fn, ln, new⟩], .inserted)

/-- Pitcher branch of `MainWindow.saveData` (store effect). Modelled from
the spec: the `pitchers` table is never created inside src/ (no CREATE
TABLE for it exists), so its constraint set is taken from the spec's data
model — records keyed by (team, first name, last name), unique. The
branch only inserts after the (team, first, last) lookup found nothing,
so the insert cannot violate that key. -/
def savePitcher (ps : List PitcherRow) (tid : ℤ) (fn ln : String) (new : PitcherStats) :
    List PitcherRow × SaveAction :=
  match ps.find? (pitcherKey tid fn ln) with
  | some original =>
    if zeroGuard original.s.toList new.toList then (ps, .rejected)
    else if hasChanges original.s.toList new.toList then
      (ps.map (fun r => if pitcherKey tid fn ln r then { r with s := new } else r), .updated)
    else (ps, .noop)
  | none => (ps ++ [⟨tid, fn, ln, new⟩], .inserted)

/-- `SELECT id FROM teams WHERE team_name = ?` (first row). -/
def findTeam (ts : List Team) (name : String) : Option Team :=
  ts.find? (fun t => decide (t.team_name = name))

/-- A raised Python exception (uncaught in the modelled code path). -/
inductive PyErr where
  | attributeError
  deriving DecidableEq

/-- `MainWindow.connect_to_database`: returns the handle, or `None` after
a reported sqlite error. -/
def connect_to_database (r : Except String DB) : Option DB :=
  match r with
  | .ok db => some db
  | .error _ => none

/-- `MainWindow.saveData` from the top, Hitter role: it calls
`self.db_connection.cursor()` with no null check, so a null store handle
raises AttributeError; otherwise the team name is resolved (aborting with
a label message when missing) and the hitter branch runs. -/
def saveDataHitter (conn : Option DB) (team_name fn ln : String) (new : HitterStats) :
    Except PyErr (DB × SaveAction) :=
  match conn with
  | none => .error .attributeError
  | some db =>
    match findTeam db.teams team_name with
    | none => .ok (db, .noTeam)
    | some t =>
      let r := saveHitter db.hitters t.id fn ln new
      .ok ({ db with hitters := r.1 }, r.2)

/-! ## Startup schema: `create_tables` / `update_database_schema` -/

/-- An sqlite3.OperationalError raised by a statement. -/
inductive SqlErr where
  | noSuchTable : String → SqlErr
  deriving DecidableEq

/-- The store's schema: tables with their column lists. -/
structure Schema where
  tables : List (String × List String)
  deriving DecidableEq

def hasTable (s : Schema) (n : String) : Bool :=
  s.tables.any (fun t => decide (t.1 = n))

/-- Columns of the `hitters` table exactly as written in the
`CREATE TABLE IF NOT EXISTS hitters (...)` statement of `create_tables`. -/
def hittersColumns : List String :=
  ["id", "team_id", "first_name", "last_name", "games", "ab", "aba", "abr",
   "runs", "hits", "doubles", "triples", "hr", "rbi", "k", "bb", "gidp",
   "err", "sb", "cs"]

/-- `MainWindow.create_tables`: the only statement it executes is
`CREATE TABLE IF NOT EXISTS hitters (...)`; no other table is created. -/
def create_tables (s : Schema) : Schema :=
  if hasTable s "hitters" then s else { tables := s.tables ++ [("hitters", hittersColumns)] }

/-- `PRAGMA table_info(t)`: the column list, empty when the table does
not exist. -/
def tableColumns (s : Schema) (t : String) : List String :=
  ((s.tables.find? (fun p => decide (p.1 = t))).map (fun p => p.2)).getD []

/-- `MainWindow.ensure_column_exists`: read `PRAGMA table_info`, and if
the column is absent run `ALTER TABLE ... ADD COLUMN ...` — which raises
"no such table" when the table itself is missing. -/
def ensure_column_exists (s : Schema) (t c _ctype : String) : Except SqlErr Schema :=
  if (tableColumns s t).contains c then .ok s
  else if hasTable s t then
    .ok { tables := s.tables.map (fun p => if decide (p.1 = t) then (p.1, p.2 ++ [c]) else p) }
  else .error (.noSuchTable t)

/-- `MainWindow.update_database_schema`: the six `ensure_column_exists`
calls in source order. -/
def update_database_schema (s : Schema) : Except SqlErr Schema := do
  let s1 ← ensure_column_exists s "hitters" "sb" "INTEGER DEFAULT 0"
  let s2 ← ensure_column_exists s1 "hitters" "cs" "INTEGER DEFAULT 0"
  let s3 ← ensure_column_exists s2 "hitters" "gidp" "INTEGER DEFAULT 0"
  let s4 ← ensure_column_exists s3 "hitters" "err" "INTEGER DEFAULT 0"
  let s5 ← ensure_column_exists s4 "pitchers" "wp" "INTEGER DEFAULT 0"
  ensure_column_exists s5 "pitchers" "err" "INTEGER DEFAULT 0"

/-- The schema-touching part of `MainWindow.__init__`: `create_tables`
then `update_database_schema`, in that order. -/
def startupSchema (s : Schema) : Except SqlErr Schema :=
  update_database_schema (create_tables s)

/-- `create_tables` as called on the connection handle: it dereferences
`self.db_connection` with no null check. -/
def create_tablesOp (conn : Option Schema) : Except PyErr Schema :=
  match conn with
  | none => .error .attributeError
  | some s => .ok (create_tables s)

/-! ## `ConfigWindow`: team management -/

/-- `ConfigWindow.deleteTeam`, confirmed path: the three DELETE
statements in source order on one cursor — first the team row, then the
hitters and pitchers whose `team_id` is in
`SELECT id FROM teams WHERE team_name = ?`, each subquery evaluated
against the store as already modified by the preceding statements. -/
def deleteTeam (db : DB) (name : String) : DB :=
  let db1 : DB := { db with teams := db.teams.filter (fun t => !(decide (t.team_name = name))) }
  let ids1 := (db1.teams.filter (fun t => decide (t.team_name = name))).map (fun t => t.id)
  let db2 : DB := { db1 with hitters := db1.hitters.filter (fun h => !(ids1.contains h.team_id)) }
  let ids2 := (db2.teams.filter (fun t => decide (t.team_name = name))).map (fun t => t.id)
  { db2 with pitchers := db2.pitchers.filter (fun p => !(ids2.contains p.team_id)) }

/-- `ConfigWindow.deleteTeam` from the top: guarded by
`if team_name and self.db_connection:`, so with a null handle (or empty
name) nothing runs. -/
def deleteTeamOp (conn : Option DB) (name : String) : Option DB :=
  match conn with
  | none => none
  | some db => if name = "" then some db else some (deleteTeam db name)

/-- `ConfigWindow.createTeam`: refuse a duplicate name, else insert the
team row (the fresh rowid is a parameter here). -/
def createTeam (db : DB) (newId : ℤ) (name : String) : DB :=
  if (db.teams.filter (fun t => decide (t.team_name = name))).length > 0 then db
  else { db with teams := db.teams ++ [⟨newId, name⟩] }

/-- `ConfigWindow.initDatabase`, confirmed path: DELETE everything from
all three tables. -/
def initDatabase (_db : DB) : DB :=
  { teams := [], hitters := [], pitchers := [] }

/-- `ConfigWindow.createTeam` from the top: unlike `deleteTeam` and
`updateTeams`, it calls `self.db_connection.cursor()` with no null
check, so a null handle raises AttributeError. -/
def createTeamOp (conn : Option DB) (newId : ℤ) (name : String) : Except PyErr DB :=
  match conn with
  | none => .error .attributeError
  | some db => .ok (createTeam db newId name)

/-! ## The unused batch-save helpers `saveHitterData` / `savePitcherData` -/

/-- The `DO UPDATE SET` clause of `saveHitterData`'s
`ON CONFLICT(first_name, last_name)`: every counter accumulates except
`aba`, which is replaced by the excluded value; names and team are not
touched. -/
def accumulateHitter (old d : HitterStats) : HitterStats :=
  ⟨old.games + d.games, old.ab + d.ab, d.aba, old.hits + d.hits, old.runs + d.runs,
   old.doubles + d.doubles, old.triples + d.triples, old.hr + d.hr, old.rbi + d.rbi,
   old.k + d.k, old.bb + d.bb, old.sb + d.sb, old.cs + d.cs, old.gidp + d.gidp,
   old.err + d.err⟩

/-- The INSERT ... ON CONFLICT statement of `saveHitterData`: accumulate
into the row with the conflicting name pair, else insert a new row. -/
def batchUpsertHitter (hs : List HitterRow) (tid : ℤ) (fn ln : String) (d : HitterStats) :
    List HitterRow :=
  if hs.any (fun r => decide (r.first_name = fn) && decide (r.last_name = ln)) then
    hs.map (fun r =>
      if decide (r.first_name = fn) && decide (r.last_name = ln) then
        { r with s := accumulateHitter r.s d }
      else r)
  else hs ++ [⟨tid, fn, ln, d⟩]

/-- `MainWindow.saveHitterData` (the unused accumulate-on-conflict batch
path, never wired to the UI): its whole body is inside
`if self.db_connection:`, so a null handle is a silent no-op. -/
def saveHitterData (conn : Option (List HitterRow)) (tid : ℤ) (fn ln : String)
    (d : HitterStats) : Option (List HitterRow) :=
  match conn with
  | none => none
  | some hs => some (batchUpsertHitter hs tid fn ln d)

/-- The `DO UPDATE SET` clause of `savePitcherData`: counters accumulate,
`ipa` is replaced, and the `hits` column is not in the statement at all,
so the stored hits-allowed value is kept. -/
def accumulatePitcher (old d : PitcherStats) : PitcherStats :=
  ⟨old.games + d.games, old.st + d.st, old.ip + d.ip, d.ipa, old.wins + d.wins,
   old.losses + d.losses, old.saves + d.saves, old.holds + d.holds, old.hits,
   old.er + d.er, old.hr + d.hr, old.k + d.k, old.bb + d.bb, old.wp + d.wp,
   old.err + d.err⟩

/-- The INSERT ... ON CONFLICT statement of `savePitcherData`. Its column
list omits `hits`, so a fresh row's hits-allowed is NULL in the store;
NULL is modelled as 0, the value the readers' `safe_int` coercion gives
it. -/
def batchUpsertPitcher (ps : List PitcherRow) (tid : ℤ) (fn ln : String) (d : PitcherStats) :
    List PitcherRow :=
  if ps.any (fun r => decide (r.first_name = fn) && decide (r.last_name = ln)) then
    ps.map (fun r =>
      if decide (r.first_name = fn) && decide (r.last_name = ln) then
        { r with s := accumulatePitcher r.s d }
      else r)
  else ps ++ [⟨tid, fn, ln, { d with hits := 0 }⟩]

/-- `MainWindow.savePitcherData` (unused batch path): like
`saveHitterData`, fully guarded by `if self.db_connection:`. -/
def savePitcherData (conn : Option (List PitcherRow)) (tid : ℤ) (fn ln : String)
    (d : PitcherStats) : Option (List PitcherRow) :=
  match conn with
  | none => none
  | some ps => some (batchUpsertPitcher ps tid fn ln d)

/-! ## Displayed rate statistics -/

/-- The AVG/SLG display idiom (`updatePlayerList` and the report):
`x = num/den if den > 0 else 0; f"{x:.3f}".lstrip('0') if den > 0 else ".000"`. -/
def rateStr3 (num den : ℤ) : String :=
  if 0 < den then lstrip0 (pyFixed 3 ((num : ℚ) / (den : ℚ))) else ".000"

/-- The stripped ERA display idiom (`updatePlayerList` and the report's
totals row): `era = (er/ip*9) if ip > 0 else 0;
f"{era:.2f}".lstrip('0') if ip > 0 else "0.00"`. -/
def eraStr (er : ℤ) (ip : ℚ) : String :=
  if 0 < ip then lstrip0 (pyFixed 2 ((er : ℚ) / ip * 9)) else "0.00"

/-! ## Listing: `MainWindow.updatePlayerList` -/

/-- One hitter line of the listing; the `addItem` call is guarded by
`if first_name and last_name:`, so a record with an empty name produces
no entry. -/
def hitterListEntry (fn ln : String) (ab aba hits bb : ℤ) : Option String :=
  if fn ≠ "" ∧ ln ≠ "" then
    some (fn ++ " " ++ ln ++ "  ABR: " ++ toString (aba - (ab + bb)) ++ "  AVG: " ++ rateStr3 hits ab)
  else none

/-- One pitcher line of the listing (same empty-name guard). -/
def pitcherListEntry (fn ln : String) (ip ipa : ℚ) (er : ℤ) : Option String :=
  if fn ≠ "" ∧ ln ≠ "" then
    some (fn ++ " " ++ ln ++ "  IPR: " ++ pyFixed 1 (ipa - ip) ++ "  ERA: " ++ eraStr er ip)
  else none

/-- `SELECT ... FROM hitters WHERE team_id = ?` then
`sorted(players, key=lambda x: x[1])`. -/
def teamHittersSorted (db : DB) (tid : ℤ) : List HitterRow :=
  pySorted (fun a b => strLe a.last_name b.last_name)
    (db.hitters.filter (fun r => decide (r.team_id = tid)))

def updatePlayerListHitters (db : DB) (tid : ℤ) : List String :=
  (teamHittersSorted db tid).filterMap
    (fun r => hitterListEntry r.first_name r.last_name r.s.ab r.s.aba r.s.hits r.s.bb)

def updatePlayerListPitchers (db : DB) (tid : ℤ) : List String :=
  (pySorted (fun a b => strLe a.last_name b.last_name)
      (db.pitchers.filter (fun r => decide (r.team_id = tid)))).filterMap
    (fun r => pitcherListEntry r.first_name r.last_name r.s.ip r.s.ipa r.s.er)

/-! ## Report: `PrintStatsWindow.generateStats` -/

/-- The thirteen running totals of the batter loop. -/
structure BatterTotals where
  hits : ℤ
  ab : ℤ
  runs : ℤ
  doubles : ℤ
  triples : ℤ
  hr : ℤ
  rbi : ℤ
  k : ℤ
  bb : ℤ
  sb : ℤ
  cs : ℤ
  gidp : ℤ
  err : ℤ
  deriving DecidableEq

def zeroBT : BatterTotals := ⟨0, 0, 0, 0, 0, 0, 0, 0, 0, 0, 0, 0, 0⟩

/-- One iteration's `total_* += *` block. -/
def addBT (t : BatterTotals) (s : HitterStats) : BatterTotals :=
  ⟨t.hits + s.hits, t.ab + s.ab, t.runs + s.runs, t.doubles + s.doubles,
   t.triples + s.triples, t.hr + s.hr, t.rbi + s.rbi, t.k + s.k, t.bb + s.bb,
   t.sb + s.sb, t.cs + s.cs, t.gidp + s.gidp, t.err + s.err⟩

/-- `first_name[0]` (only evaluated under the non-empty-name guard). -/
def firstInitial (s : String) : String :=
  match s.data with
  | [] => ""
  | c :: _ => String.mk [c]

/-- Python right-aligned integer field `f"{n:w}"`. -/
def intCell (w : Nat) (n : ℤ) : String := padLeft w (toString n)

/-- Python right-aligned fixed-point field `f"{q:w.df}"`. -/
def qCell (w d : Nat) (q : ℚ) : String := padLeft w (pyFixed d q)

/-- The per-hitter report row (the guarded `hitters_stats +=` f-string). -/
def hitterRowString (r : HitterRow) : String :=
  firstInitial r.first_name ++ ". " ++ padRight 12 r.last_name ++ "   " ++
  intCell 2 r.s.games ++ "  " ++ intCell 3 r.s.ab ++ "  " ++ intCell 3 r.s.aba ++ "  " ++
  intCell 3 (r.s.aba - (r.s.ab + r.s.bb)) ++ "   " ++
  padRight 6 (rateStr3 r.s.hits r.s.ab) ++ " " ++
  padRight 6 (rateStr3 (r.s.hits + r.s.doubles + 2 * r.s.triples + 3 * r.s.hr) r.s.ab) ++ " " ++
  intCell 4 r.s.hits ++ " " ++ intCell 4 r.s.runs ++ " " ++ intCell 4 r.s.doubles ++ " " ++
  intCell 4 r.s.triples ++ " " ++ intCell 4 r.s.hr ++ " " ++ intCell 5 r.s.rbi ++ " " ++
  intCell 5 r.s.k ++ " " ++ intCell 5 r.s.bb ++ " " ++ intCell 4 r.s.sb ++ " " ++
  intCell 4 r.s.cs ++ " " ++ intCell 5 r.s.gidp ++ " " ++ intCell 3 r.s.err ++ "\n"

/-- The batter loop of `generateStats`: appends a row only when both
names are non-empty, but accumulates every record's counters into the
totals unconditionally. -/
def hittersLoop : List HitterRow → String × BatterTotals → String × BatterTotals
  | [], acc => acc
  | r :: rest, (text, t) =>
    hittersLoop rest
      (text ++ (if r.first_name ≠ "" ∧ r.last_name ≠ "" then hitterRowString r else ""),
       addBT t r.s)

def reportRowsText (db : DB) (tid : ℤ) : String :=
  (hittersLoop (teamHittersSorted db tid) ("", zeroBT)).1

def reportTotals (db : DB) (tid : ℤ) : BatterTotals :=
  (hittersLoop (teamHittersSorted db tid) ("", zeroBT)).2

def reportAvgStr (db : DB) (tid : ℤ) : String :=
  rateStr3 (reportTotals db tid).hits (reportTotals db tid).ab

def reportSlgStr (db : DB) (tid : ℤ) : String :=
  rateStr3
    ((reportTotals db tid).hits + (reportTotals db tid).doubles +
      2 * (reportTotals db tid).triples + 3 * (reportTotals db tid).hr)
    (reportTotals db tid).ab

def hittersHeader : String :=
  "Batters\n" ++
  "Name               G   AB  ABA  ABR    AVG    SLG    H    R    2B   3B   HR   RBI    K     BB    SB    CS   GIDP  ERR\n" ++
  String.mk (List.replicate 114 '-') ++ "\n"

def hittersSummary (avg_str slg_str : String) (t : BatterTotals) : String :=
  "\nHitters Totals\n" ++
  "AVG     SLG     H     R     2B    3B    HR    RBI     K      BB     SB   CS    GIDP  ERR\n" ++
  padRight 6 avg_str ++ " " ++ padRight 6 slg_str ++ " " ++
  padRight 5 (toString t.hits) ++ " " ++ padRight 5 (toString t.runs) ++ " " ++
  padRight 5 (toString t.doubles) ++ " " ++ padRight 5 (toString t.triples) ++ " " ++
  padRight 5 (toString t.hr) ++ " " ++ padRight 6 (toString t.rbi) ++ " " ++
  padRight 7 (toString t.k) ++ " " ++ padRight 7 (toString t.bb) ++ " " ++
  padRight 6 (toString t.sb) ++ " " ++ padRight 5 (toString t.cs) ++ " " ++
  padRight 6 (toString t.gidp) ++ " " ++ padRight 5 (toString t.err) ++ "\n"

/-- `PrintStatsWindow.generateStats` for the window's team. -/
def generateStats (db : DB) (tid : ℤ) : String :=
  hittersHeader ++ reportRowsText db tid ++
  hittersSummary (reportAvgStr db tid) (reportSlgStr db tid) (reportTotals db tid)

/-! ## Report: `PrintStatsWindow.generatePitchersStats` -/

/-- The eleven running totals of the pitcher loop (games/st/ipa are not
totalled in the source). -/
structure PitcherTotals where
  ip : ℚ
  er : ℤ
  wins : ℤ
  losses : ℤ
  saves : ℤ
  hits : ℤ
  hr : ℤ
  k : ℤ
  bb : ℤ
  wp : ℤ
  err : ℤ
  deriving DecidableEq

def zeroPT : PitcherTotals := ⟨0, 0, 0, 0, 0, 0, 0, 0, 0, 0, 0⟩

def addPT (t : PitcherTotals) (s : PitcherStats) : PitcherTotals :=
  ⟨t.ip + s.ip, t.er + s.er, t.wins + s.wins, t.losses + s.losses,
   t.saves + s.saves, t.hits + s.hits, t.hr + s.hr, t.k + s.k, t.bb + s.bb,
   t.wp + s.wp, t.err + s.err⟩

/-- The per-row ERA cell `f"{era:5.2f}"` with
`era = (er / ip * 9) if ip > 0 else 0`; note: no `.lstrip('0')` here. -/
def pitcherEraCell (er : ℤ) (ip : ℚ) : String :=
  qCell 5 2 (if 0 < ip then (er : ℚ) / ip * 9 else 0)

/-- The per-pitcher report row (the guarded `pitchers_stats +=` f-string). -/
def pitcherRowString (r : PitcherRow) : String :=
  firstInitial r.first_name ++ ". " ++ padRight 12 r.last_name ++ "   " ++
  intCell 2 r.s.games ++ "  " ++ intCell 2 r.s.st ++ "  " ++ qCell 5 1 r.s.ip ++ "  " ++
  qCell 5 1 r.s.ipa ++ "  " ++ qCell 5 1 (r.s.ipa - r.s.ip) ++ "  " ++
  intCell 2 r.s.wins ++ "  " ++ intCell 2 r.s.losses ++ "  " ++ intCell 2 r.s.saves ++ "  " ++
  intCell 2 r.s.hits ++ "  " ++ intCell 3 r.s.er ++ "  " ++ intCell 3 r.s.hr ++ "  " ++
  pitcherEraCell r.s.er r.s.ip ++ "  " ++ intCell 5 r.s.k ++ " " ++ intCell 5 r.s.bb ++ "  " ++
  intCell 5 r.s.wp ++ "  " ++ intCell 5 r.s.err ++ "\n"

/-- `SELECT ... FROM pitchers WHERE team_id = ?` — the pitcher report
does not sort. -/
def teamPitchers (db : DB) (tid : ℤ) : List PitcherRow :=
  db.pitchers.filter (fun r => decide (r.team_id = tid))

/-- The pitcher loop of `generatePitchersStats`: same shape as the batter
loop — rows only for fully named records, totals over every record. -/
def pitchersLoop : List PitcherRow → String × PitcherTotals → String × PitcherTotals
  | [], acc => acc
  | r :: rest, (text, t) =>
    pitchersLoop rest
      (text ++ (if r.first_name ≠ "" ∧ r.last_name ≠ "" then pitcherRowString r else ""),
       addPT t r.s)

def pitcherReportRowsText (db : DB) (tid : ℤ) : String :=
  (pitchersLoop (teamPitchers db tid) ("", zeroPT)).1

def pitcherReportTotals (db : DB) (tid : ℤ) : PitcherTotals :=
  (pitchersLoop (teamPitchers db tid) ("", zeroPT)).2

def pitchersHeader : String :=
  "Pitchers\n" ++
  "Name               G   GS   IP    IPA    IPR    W   L  SV   H   ER    HR   ERA   K     BB     WP     ERR\n" ++
  String.mk (List.replicate 111 '-') ++ "\n"

def pitchersSummary (t : PitcherTotals) : String :=
  "\nPitchers Totals\n" ++
  "IP      ER    HR   ERA       K       BB       WP       ERR\n" ++
  padRight 7 (pyFixed 1 t.ip) ++ " " ++ padRight 5 (toString t.er) ++ " " ++
  padRight 5 (toString t.hr) ++ " " ++ padRight 9 (eraStr t.er t.ip) ++ " " ++
  padRight 7 (toString t.k) ++ " " ++ padRight 9 (toString t.bb) ++ " " ++
  padRight 8 (toString t.wp) ++ " " ++ padRight 7 (toString t.err) ++ "\n"

/-- `PrintStatsWindow.generatePitchersStats` for the window's team. -/
def generatePitchersStats (db : DB) (tid : ℤ) : String :=
  pitchersHeader ++ pitcherReportRowsText db tid ++
  pitchersSummary (pitcherReportTotals db tid)

/-- Concatenate a list of strings in order (the `+=` accumulation of the
report loops, row by row). -/
def strConcat : List String → String
  | [] => ""
  | s :: rest => s ++ strConcat rest

/-! ## Store states reachable through the application -/

/-- States reachable from an emptied store through the store-mutating
operations of the application: team creation, the two `saveData`
branches (with any team id), team deletion, and re-initialisation. -/
inductive Reachable : DB → Prop where
  | empty : Reachable ⟨[], [], []⟩
  | create {db : DB} (newId : ℤ) (name : String) :
      Reachable db → Reachable (createTeam db newId name)
  | saveH {db : DB} (tid : ℤ) (fn ln : String) (new : HitterStats) :
      Reachable db → Reachable { db with hitters := (saveHitter db.hitters tid fn ln new).1 }
  | saveP {db : DB} (tid : ℤ) (fn ln : String) (new : PitcherStats) :
      Reachable db → Reachable { db with pitchers := (savePitcher db.pitchers tid fn ln new).1 }
  | delete {db : DB} (name : String) :
      Reachable db → Reachable (deleteTeam db name)
  | initDb {db : DB} : Reachable db → Reachable (initDatabase db)

/-- No two hitter rows share the (first name, last name) pair: the
property the schema's `UNIQUE (first_name, last_name)` constraint
enforces. -/
def namesOk (l : List HitterRow) : Prop :=
  l.Pairwise (fun a b => ¬(a.first_name = b.first_name ∧ a.last_name = b.last_name))

/-! ## Helper lemmas -/

theorem hasChanges_self {α : Type} [DecidableEq α] (l : List α) : hasChanges l l = false := by
  induction l with
  | nil => rfl
  | cons x xs ih =>
    simp only [hasChanges, List.zip_cons_cons, List.any_cons] at ih ⊢
    rw [ih]
    simp

theorem zeroGuard_self {α : Type} [DecidableEq α] [OfNat α 0] (l : List α) :
    zeroGuard l l = false := by
  induction l with
  | nil => rfl
  | cons x xs ih =>
    simp only [zeroGuard, List.zip_cons_cons, List.any_cons] at ih ⊢
    rw [ih]
    by_cases hx : x = 0
    · simp [hx]
    · simp [hx]

theorem zeroGuard_eq_true_of_get {α : Type} [DecidableEq α] [OfNat α 0]
    {original current : List α} (i : Nat) (h1 : i < original.length)
    (h2 : i < current.length) (hz : current.get ⟨i, h2⟩ = 0)
    (hnz : ¬ original.get ⟨i, h1⟩ = 0) : zeroGuard original current = true := by
  unfold zeroGuard
  rw [List.any_eq_true]
  have hlen : i < (original.zip current).length := by
    rw [List.length_zip]; omega
  refine ⟨(original.zip current).get ⟨i, hlen⟩, List.get_mem _ _ hlen, ?_⟩
  simp only [List.get_eq_getElem] at hz hnz ⊢
  simp only [List.getElem_zip]
  simp [hz, hnz]

theorem zeroGuard_eq_false_of_ne {α : Type} [DecidableEq α] [OfNat α 0]
    (original current : List α) (h : ∀ x ∈ current, ¬ x = 0) :
    zeroGuard original current = false := by
  unfold zeroGuard
  rw [List.any_eq_false]
  intro p hp
  obtain ⟨a, b⟩ := p
  have hb := (List.of_mem_zip hp).2
  simp [h b hb]

theorem find?_map_of_pred {α : Type} (l : List α) (p : α → Bool) (f : α → α)
    (hf : ∀ x, p (f x) = p x) : (l.map f).find? p = (l.find? p).map f := by
  induction l with
  | nil => rfl
  | cons x xs ih =>
    by_cases hp : p x
    · have hpf : p (f x) = true := by rw [hf]; exact hp
      rw [List.map_cons, List.find?_cons_of_pos _ hpf, List.find?_cons_of_pos _ hp,
        Option.map_some']
    · have hpf : ¬ p (f x) = true := by rw [hf]; simp [hp]
      rw [List.map_cons, List.find?_cons_of_neg _ hpf, List.find?_cons_of_neg _ (by simp [hp]),
        ih]

theorem hitterKey_update (tid : ℤ) (fn ln : String) (new : HitterStats) (r : HitterRow) :
    hitterKey tid fn ln (if hitterKey tid fn ln r then { r with s := new } else r) =
      hitterKey tid fn ln r := by
  by_cases h : hitterKey tid fn ln r
  · simp only [h, if_true]
    unfold hitterKey at h ⊢
    exact h
  · simp [h]

theorem pitcherKey_update (tid : ℤ) (fn ln : String) (new : PitcherStats) (r : PitcherRow) :
    pitcherKey tid fn ln (if pitcherKey tid fn ln r then { r with s := new } else r) =
      pitcherKey tid fn ln r := by
  by_cases h : pitcherKey tid fn ln r
  · simp only [h, if_true]
    unfold pitcherKey at h ⊢
    exact h
  · simp [h]

theorem teamIds_after_delete (ts : List Team) (name : String) :
    (ts.filter (fun t => !(decide (t.team_name = name)))).filter
      (fun t => decide (t.team_name = name)) = [] := by
  induction ts with
  | nil => rfl
  | cons t ts ih =>
    by_cases h : t.team_name = name
    · simp [List.filter_cons, h, ih]
    · simp [List.filter_cons, h, ih]

/-- The two cascade DELETEs of `deleteTeam` run after the team row is
already gone, so their `IN (SELECT id FROM teams ...)` sets are empty and
they remove nothing. -/
theorem deleteTeam_hitters (db : DB) (name : String) :
    (deleteTeam db name).hitters = db.hitters := by
  unfold deleteTeam
  simp [teamIds_after_delete]

theorem deleteTeam_pitchers (db : DB) (name : String) :
    (deleteTeam db name).pitchers = db.pitchers := by
  unfold deleteTeam
  simp [teamIds_after_delete]

theorem deleteTeam_teams (db : DB) (name : String) :
    (deleteTeam db name).teams = db.teams.filter (fun t => !(decide (t.team_name = name))) := by
  unfold deleteTeam
  simp

theorem hittersLoop_fst (l : List HitterRow) : ∀ (s : String) (t : BatterTotals),
    (hittersLoop l (s, t)).1 =
      s ++ strConcat (l.map (fun r =>
        if r.first_name ≠ "" ∧ r.last_name ≠ "" then hitterRowString r else "")) := by
  induction l with
  | nil => intro s t; simp [hittersLoop, strConcat]
  | cons r rest ih =>
    intro s t
    simp only [hittersLoop, ih, List.map_cons, strConcat, String.append_assoc]

theorem hittersLoop_snd (l : List HitterRow) : ∀ (s : String) (t : BatterTotals),
    (hittersLoop l (s, t)).2 =
      ⟨t.hits + (l.map (fun r => r.s.hits)).sum,
       t.ab + (l.map (fun r => r.s.ab)).sum,
       t.runs + (l.map (fun r => r.s.runs)).sum,
       t.doubles + (l.map (fun r => r.s.doubles)).sum,
       t.triples + (l.map (fun r => r.s.triples)).sum,
       t.hr + (l.map (fun r => r.s.hr)).sum,
       t.rbi + (l.map (fun r => r.s.rbi)).sum,
       t.k + (l.map (fun r => r.s.k)).sum,
       t.bb + (l.map (fun r => r.s.bb)).sum,
       t.sb + (l.map (fun r => r.s.sb)).sum,
       t.cs + (l.map (fun r => r.s.cs)).sum,
       t.gidp + (l.map (fun r => r.s.gidp)).sum,
       t.err + (l.map (fun r => r.s.err)).sum⟩ := by
  induction l with
  | nil => intro s t; simp [hittersLoop]
  | cons r rest ih =>
    intro s t
    simp only [hittersLoop, ih, addBT, List.map_cons, List.sum_cons, BatterTotals.mk.injEq]
    omega

theorem pitchersLoop_fst (l : List PitcherRow) : ∀ (s : String) (t : PitcherTotals),
    (pitchersLoop l (s, t)).1 =
      s ++ strConcat (l.map (fun r =>
        if r.first_name ≠ "" ∧ r.last_name ≠ "" then pitcherRowString r else "")) := by
  induction l with
  | nil => intro s t; simp [pitchersLoop, strConcat]
  | cons r rest ih =>
    intro s t
    simp only [pitchersLoop, ih, List.map_cons, strConcat, String.append_assoc]

theorem pitchersLoop_snd (l : List PitcherRow) : ∀ (s : String) (t : PitcherTotals),
    (pitchersLoop l (s, t)).2 =
      ⟨t.ip + (l.map (fun r => r.s.ip)).sum,
       t.er + (l.map (fun r => r.s.er)).sum,
       t.wins + (l.map (fun r => r.s.wins)).sum,
       t.losses + (l.map (fun r => r.s.losses)).sum,
       t.saves + (l.map (fun r => r.s.saves)).sum,
       t.hits + (l.map (fun r => r.s.hits)).sum,
       t.hr + (l.map (fun r => r.s.hr)).sum,
       t.k + (l.map (fun r => r.s.k)).sum,
       t.bb + (l.map (fun r => r.s.bb)).sum,
       t.wp + (l.map (fun r => r.s.wp)).sum,
       t.err + (l.map (fun r => r.s.err)).sum⟩ := by
  induction l with
  | nil => intro s t; simp [pitchersLoop]
  | cons r rest ih =>
    intro s t
    simp only [pitchersLoop, ih, addPT, List.map_cons, List.sum_cons, PitcherTotals.mk.injEq]
    exact ⟨by ring, by omega⟩

theorem strConcat_filter_if {α : Type} (p : α → Prop) [DecidablePred p]
    (row : α → String) (l : List α) :
    strConcat (l.map (fun r => if p r then row r else "")) =
      strConcat ((l.filter (fun r => decide (p r))).map row) := by
  induction l with
  | nil => rfl
  | cons r rest ih =>
    rw [List.map_cons, List.filter_cons]
    by_cases hn : p r
    · rw [if_pos hn, if_pos (decide_eq_true hn), List.map_cons]
      show row r ++ _ = row r ++ _
      rw [ih]
    · rw [if_neg hn, if_neg (by simp [hn])]
      show "" ++ _ = _
      rw [String.empty_append, ih]

theorem pyFixed_div (d : Nat) (a b : ℤ) (h : 0 < b) :
    pyFixed d ((a : ℚ) / (b : ℚ)) = fmtScaled d (rheInt (10 ^ d * a) b) := by
  unfold pyFixed
  congr 1
  have harg : ((10 : ℚ) ^ d) * ((a : ℚ) / (b : ℚ)) = ((10 ^ d * a : ℤ) : ℚ) / ((b : ℤ) : ℚ) := by
    push_cast
    ring
  rw [harg, rhe_div _ _ h]

theorem rateStr3_eval (num den : ℤ) (h : 0 < den) :
    rateStr3 num den = lstrip0 (fmtScaled 3 (rheInt (1000 * num) den)) := by
  unfold rateStr3
  rw [if_pos h, pyFixed_div 3 num den h]
  norm_num

theorem pyFixed_zero (d : Nat) : pyFixed d 0 = fmtScaled d 0 := by
  unfold pyFixed
  rw [mul_zero]
  unfold rhe
  rw [Int.fract_zero, if_pos (by norm_num : (0:ℚ) < 1/2), Int.floor_zero]

theorem era_div_cast (er : ℤ) (ip : ℚ) (h : 0 < ip) :
    (er : ℚ) / ip * 9 = ((9 * er * (ip.den : ℤ) : ℤ) : ℚ) / ((ip.num : ℤ) : ℚ) := by
  have hnum : (0 : ℤ) < ip.num := Rat.num_pos.mpr h
  have hnq : ((ip.num : ℚ)) ≠ 0 := by
    have : (0 : ℚ) < (ip.num : ℚ) := by exact_mod_cast hnum
    exact this.ne'
  have hdq : ((ip.den : ℚ)) ≠ 0 := by
    have := ip.den_pos
    positivity
  have hmul : ((ip.num : ℚ)) = ip * ((ip.den : ℚ)) :=
    (div_eq_iff hdq).mp (Rat.num_div_den ip)
  have l1 : (er : ℚ) / ip * 9 = (9 * (er : ℚ)) / ip := by ring
  rw [l1, div_eq_div_iff h.ne' (by exact_mod_cast hnq)]
  push_cast
  rw [hmul]
  ring

theorem eraStr_eval (er : ℤ) (ip : ℚ) (h : 0 < ip) :
    eraStr er ip = lstrip0 (fmtScaled 2 (rheInt (900 * er * (ip.den : ℤ)) ip.num)) := by
  unfold eraStr
  rw [if_pos h]
  congr 1
  have hnum : (0 : ℤ) < ip.num := Rat.num_pos.mpr h
  rw [era_div_cast er ip h, pyFixed_div 2 _ _ hnum]
  have : (10 : ℤ) ^ 2 * (9 * er * (ip.den : ℤ)) = 900 * er * (ip.den : ℤ) := by ring
  rw [this]

theorem eraStr_zero (er : ℤ) : eraStr er 0 = "0.00" := by
  unfold eraStr
  rw [if_neg (lt_irrefl 0)]

theorem pitcherEraCell_eval (er : ℤ) (ip : ℚ) (h : 0 < ip) :
    pitcherEraCell er ip = padLeft 5 (fmtScaled 2 (rheInt (900 * er * (ip.den : ℤ)) ip.num)) := by
  unfold pitcherEraCell qCell
  rw [if_pos h]
  congr 1
  have hnum : (0 : ℤ) < ip.num := Rat.num_pos.mpr h
  rw [era_div_cast er ip h, pyFixed_div 2 _ _ hnum]
  have : (10 : ℤ) ^ 2 * (9 * er * (ip.den : ℤ)) = 900 * er * (ip.den : ℤ) := by ring
  rw [this]

theorem pitcherEraCell_zero (er : ℤ) : pitcherEraCell er 0 = " 0.00" := by
  unfold pitcherEraCell qCell
  rw [if_neg (lt_irrefl 0), pyFixed_zero]
  decide

/-! ## Concrete stores used as evaluation inputs -/

def exStatsA : HitterStats := ⟨1, 10, 100, 3, 2, 1, 0, 1, 2, 5, 4, 0, 0, 1, 0⟩

/-- `exStatsA` with `hits` blanked to zero (field index 3 of the tuple). -/
def exStatsAZeroHits : HitterStats := ⟨1, 10, 100, 0, 2, 1, 0, 1, 2, 5, 4, 0, 0, 1, 0⟩

/-- A counter set with every field non-zero. -/
def exStatsB : HitterStats := ⟨2, 11, 101, 4, 3, 2, 1, 2, 3, 6, 5, 1, 1, 2, 1⟩

def exDbC1 : DB :=
  { teams := [⟨1, "Reds"⟩, ⟨2, "Blues"⟩],
    hitters := [⟨1, "John", "Smith", exStatsA⟩],
    pitchers := [] }

def c4statsA : HitterStats := ⟨0, 10, 0, 3, 0, 0, 0, 0, 0, 0, 0, 0, 0, 0, 0⟩

def c4statsB : HitterStats := ⟨0, 20, 0, 5, 0, 0, 0, 0, 0, 0, 0, 0, 0, 0, 0⟩

def exDbC4 : DB :=
  { teams := [⟨7, "Sluggers"⟩],
    hitters := [⟨7, "Alice", "Aa", c4statsA⟩, ⟨7, "Bob", "Bb", c4statsB⟩],
    pitchers := [] }

def c10statsGhost : HitterStats := ⟨0, 20, 0, 5, 0, 0, 0, 0, 0, 0, 0, 0, 0, 0, 0⟩

def c10statsAnn : HitterStats := ⟨0, 10, 0, 3, 0, 0, 0, 0, 0, 0, 0, 0, 0, 0, 0⟩

/-- A store whose team 3 has one fully named batter (3 hits) and one
batter with an empty first name (5 hits). -/
def exDbC10 : DB :=
  { teams := [⟨3, "Phantoms"⟩],
    hitters := [⟨3, "Ann", "Zed", c10statsAnn⟩, ⟨3, "", "Ghost", c10statsGhost⟩],
    pitchers := [] }

/-! ## The claims -/

/-- C1: the spec claims team deletion cascades to the team's batter and
pitcher records. In the code the team row is deleted first, so the two
cascade DELETEs — whose `team_id IN (SELECT id FROM teams WHERE
team_name = ?)` subqueries run against the already-updated teams table —
match nothing: for every store and team name the hitter and pitcher
tables are left entirely unchanged, and in the concrete store the Reds
batter record survives the deletion of the Reds. -/
theorem c1_delete_team_never_cascades :
    (∀ (db : DB) (name : String),
      (deleteTeam db name).hitters = db.hitters ∧ (deleteTeam db name).pitchers = db.pitchers)
    ∧ (deleteTeam exDbC1 "Reds").teams = [⟨2, "Blues"⟩]
    ∧ (deleteTeam exDbC1 "Reds").hitters = [⟨1, "John", "Smith", exStatsA⟩] :=
  ⟨fun db name => ⟨deleteTeam_hitters db name, deleteTeam_pitchers db name⟩,
   by decide, by decide⟩

/-- C2: the spec claims startup leaves all three tables (teams, hitters,
pitchers) present in an empty store. `create_tables` only issues
`CREATE TABLE IF NOT EXISTS hitters`, so teams and pitchers are never
created, and `update_database_schema` then fails with "no such table"
when it tries to `ALTER TABLE pitchers`. -/
theorem c2_startup_creates_only_hitters :
    startupSchema ⟨[]⟩ = Except.error (SqlErr.noSuchTable "pitchers")
    ∧ hasTable (create_tables ⟨[]⟩) "hitters" = true
    ∧ hasTable (create_tables ⟨[]⟩) "teams" = false
    ∧ hasTable (create_tables ⟨[]⟩) "pitchers" = false :=
  ⟨rfl, by decide, by decide, by decide⟩

/-- C7 counterexample: the claim says every store operation on a null
handle — explicitly including the main save path — is a null-checked
no-op rather than raising. But `saveData` (and `create_tables`) call
`self.db_connection.cursor()` unguarded, raising AttributeError on a
null handle. -/
theorem c7_counterexample :
    saveDataHitter none "Reds" "John" "Smith" exStatsA = Except.error PyErr.attributeError
    ∧ create_tablesOp none = Except.error PyErr.attributeError :=
  ⟨rfl, rfl⟩

/-- C7 amended: a failed open leaves the handle null
(`connect_to_database` returns None); team deletion and the two unused
batch-save helpers are no-ops guarded by `if self.db_connection:`; but
the main save path, the startup table creation, and ConfigWindow's team
creation all dereference the handle with no null check and raise
AttributeError instead of being no-ops. -/
theorem c7_null_store_behaviour :
    (∀ e : String, connect_to_database (Except.error e) = none)
    ∧ (∀ name : String, deleteTeamOp none name = none)
    ∧ (∀ (tid : ℤ) (fn ln : String) (d : HitterStats), saveHitterData none tid fn ln d = none)
    ∧ (∀ (tid : ℤ) (fn ln : String) (d : PitcherStats), savePitcherData none tid fn ln d = none)
    ∧ (∀ (team_name fn ln : String) (new : HitterStats),
        saveDataHitter none team_name fn ln new = Except.error PyErr.attributeError)
    ∧ create_tablesOp none = Except.error PyErr.attributeError
    ∧ (∀ (newId : ℤ) (name : String),
        createTeamOp none newId name = Except.error PyErr.attributeError) :=
  ⟨fun _ => rfl, fun _ => rfl, fun _ _ _ _ => rfl, fun _ _ _ _ => rfl,
   fun _ _ _ _ => rfl, rfl, fun _ _ => rfl⟩

/-- C3: for an existing record (either role), a submission in which any
single counter is zero while the stored counter at the same tuple
position is non-zero makes `saveData` return with only the label set: the
store is returned untouched and the action is the wholesale rejection. -/
theorem c3_zero_guard_all_or_nothing :
    (∀ (hs : List HitterRow) (tid : ℤ) (fn ln : String) (new : HitterStats)
        (r : HitterRow) (i : Nat)
        (h1 : i < (HitterStats.toList r.s).length) (h2 : i < (HitterStats.toList new).length),
        hs.find? (hitterKey tid fn ln) = some r →
        (HitterStats.toList new).get ⟨i, h2⟩ = 0 →
        ¬ (HitterStats.toList r.s).get ⟨i, h1⟩ = 0 →
        saveHitter hs tid fn ln new = (hs, SaveAction.rejected))
    ∧ (∀ (ps : List PitcherRow) (tid : ℤ) (fn ln : String) (new : PitcherStats)
        (r : PitcherRow) (i : Nat)
        (h1 : i < (PitcherStats.toList r.s).length) (h2 : i < (PitcherStats.toList new).length),
        ps.find? (pitcherKey tid fn ln) = some r →
        (PitcherStats.toList new).get ⟨i, h2⟩ = 0 →
        ¬ (PitcherStats.toList r.s).get ⟨i, h1⟩ = 0 →
        savePitcher ps tid fn ln new = (ps, SaveAction.rejected)) := by
  constructor
  · intro hs tid fn ln new r i h1 h2 hfind hz hnz
    have hg : zeroGuard r.s.toList new.toList = true := zeroGuard_eq_true_of_get i h1 h2 hz hnz
    unfold saveHitter
    simp only [hfind]
    simp [hg]
  · intro ps tid fn ln new r i h1 h2 hfind hz hnz
    have hg : zeroGuard r.s.toList new.toList = true := zeroGuard_eq_true_of_get i h1 h2 hz hnz
    unfold savePitcher
    simp only [hfind]
    simp [hg]

/-- C3 witness: a stored batter with 3 hits, resubmitted with hits
blanked to 0 (tuple position 3), is rejected with the store unchanged. -/
theorem c3_witness :
    saveHitter [⟨1, "John", "Smith", exStatsA⟩] 1 "John" "Smith" exStatsAZeroHits
      = ([⟨1, "John", "Smith", exStatsA⟩], SaveAction.rejected) :=
  c3_zero_guard_all_or_nothing.1 [⟨1, "John", "Smith", exStatsA⟩] 1 "John" "Smith"
    exStatsAZeroHits ⟨1, "John", "Smith", exStatsA⟩ 3 (by decide) (by decide)
    (by decide) (by decide) (by decide)

/-- C5: for an existing record of either role, submitting the same
all-non-zero counters twice in a row makes the second call a pure no-op:
the field-by-field comparison finds no difference, so neither UPDATE nor
INSERT runs and the store is returned unchanged. -/
theorem c5_upsert_idempotent :
    (∀ (hs : List HitterRow) (tid : ℤ) (fn ln : String) (new : HitterStats) (r : HitterRow),
      hs.find? (hitterKey tid fn ln) = some r →
      (∀ x ∈ HitterStats.toList new, ¬ x = 0) →
      saveHitter (saveHitter hs tid fn ln new).1 tid fn ln new
        = ((saveHitter hs tid fn ln new).1, SaveAction.noop))
    ∧ (∀ (ps : List PitcherRow) (tid : ℤ) (fn ln : String) (new : PitcherStats)
        (r : PitcherRow),
      ps.find? (pitcherKey tid fn ln) = some r →
      (∀ x ∈ PitcherStats.toList new, ¬ x = 0) →
      savePitcher (savePitcher ps tid fn ln new).1 tid fn ln new
        = ((savePitcher ps tid fn ln new).1, SaveAction.noop)) := by
  constructor
  · intro hs tid fn ln new r hfind hall
    have hkey : hitterKey tid fn ln r = true := List.find?_some hfind
    have hzg : zeroGuard r.s.toList new.toList = false := zeroGuard_eq_false_of_ne _ _ hall
    by_cases hch : hasChanges r.s.toList new.toList
    · have hfirst : saveHitter hs tid fn ln new
          = (hs.map (fun x => if hitterKey tid fn ln x then { x with s := new } else x),
             SaveAction.updated) := by
        unfold saveHitter
        simp only [hfind]
        simp [hzg, hch]
      rw [hfirst]
      have hmap := find?_map_of_pred hs (hitterKey tid fn ln)
        (fun x => if hitterKey tid fn ln x then { x with s := new } else x)
        (hitterKey_update tid fn ln new)
      rw [hfind] at hmap
      simp only [Option.map_some'] at hmap
      rw [if_pos hkey] at hmap
      unfold saveHitter
      simp only [hmap]
      simp [zeroGuard_self, hasChanges_self]
    · have hfirst : saveHitter hs tid fn ln new = (hs, SaveAction.noop) := by
        unfold saveHitter
        simp only [hfind]
        simp [hzg, hch]
      rw [hfirst]
      unfold saveHitter
      simp only [hfind]
      simp [hzg, hch]
  · intro ps tid fn ln new r hfind hall
    have hkey : pitcherKey tid fn ln r = true := List.find?_some hfind
    have hzg : zeroGuard r.s.toList new.toList = false := zeroGuard_eq_false_of_ne _ _ hall
    by_cases hch : hasChanges r.s.toList new.toList
    · have hfirst : savePitcher ps tid fn ln new
          = (ps.map (fun x => if pitcherKey tid fn ln x then { x with s := new } else x),
             SaveAction.updated) := by
        unfold savePitcher
        simp only [hfind]
        simp [hzg, hch]
      rw [hfirst]
      have hmap := find?_map_of_pred ps (pitcherKey tid fn ln)
        (fun x => if pitcherKey tid fn ln x then { x with s := new } else x)
        (pitcherKey_update tid fn ln new)
      rw [hfind] at hmap
      simp only [Option.map_some'] at hmap
      rw [if_pos hkey] at hmap
      unfold savePitcher
      simp only [hmap]
      simp [zeroGuard_self, hasChanges_self]
    · have hfirst : savePitcher ps tid fn ln new = (ps, SaveAction.noop) := by
        unfold savePitcher
        simp only [hfind]
        simp [hzg, hch]
      rw [hfirst]
      unfold savePitcher
      simp only [hfind]
      simp [hzg, hch]

/-- A stored pitcher counter set (used as the pre-existing record). -/
def exPStatsA : PitcherStats := ⟨2, 1, 12, 100, 1, 1, 1, 1, 5, 1, 1, 3, 2, 1, 1⟩

/-- A pitcher counter set with every field non-zero. -/
def exPStatsB : PitcherStats := ⟨3, 2, 13, 101, 2, 2, 2, 2, 6, 2, 2, 4, 3, 2, 2⟩

/-- C5 witness: resubmitting the identical all-non-zero counters for the
stored John Smith batter record and the stored Cy Young pitcher record
is a no-op for both roles. -/
theorem c5_witness :
    (saveHitter (saveHitter [⟨1, "John", "Smith", exStatsA⟩] 1 "John" "Smith" exStatsB).1
        1 "John" "Smith" exStatsB
      = ((saveHitter [⟨1, "John", "Smith", exStatsA⟩] 1 "John" "Smith" exStatsB).1,
         SaveAction.noop))
    ∧ (savePitcher (savePitcher [⟨1, "Cy", "Young", exPStatsA⟩] 1 "Cy" "Young" exPStatsB).1
        1 "Cy" "Young" exPStatsB
      = ((savePitcher [⟨1, "Cy", "Young", exPStatsA⟩] 1 "Cy" "Young" exPStatsB).1,
         SaveAction.noop)) :=
  ⟨c5_upsert_idempotent.1 [⟨1, "John", "Smith", exStatsA⟩] 1 "John" "Smith" exStatsB
    ⟨1, "John", "Smith", exStatsA⟩ (by decide) (by decide),
   c5_upsert_idempotent.2 [⟨1, "Cy", "Young", exPStatsA⟩] 1 "Cy" "Young" exPStatsB
    ⟨1, "Cy", "Young", exPStatsA⟩ (by decide) (by decide)⟩

theorem update_keeps_first (tid : ℤ) (fn ln : String) (new : HitterStats) (r : HitterRow) :
    (if hitterKey tid fn ln r then { r with s := new } else r).first_name = r.first_name := by
  split <;> rfl

theorem update_keeps_last (tid : ℤ) (fn ln : String) (new : HitterStats) (r : HitterRow) :
    (if hitterKey tid fn ln r then { r with s := new } else r).last_name = r.last_name := by
  split <;> rfl

theorem createTeam_hitters (db : DB) (i : ℤ) (n : String) :
    (createTeam db i n).hitters = db.hitters := by
  unfold createTeam
  split <;> rfl

/-- Every branch of the hitter save preserves global (first, last)
uniqueness: the guard/no-op/error branches leave the store alone, the
UPDATE branch rewrites only counters, and the INSERT branch fires only
when no row with that name pair exists anywhere (the UNIQUE constraint
raises otherwise). -/
theorem saveHitter_namesOk (hs : List HitterRow) (tid : ℤ) (fn ln : String)
    (new : HitterStats) (h : namesOk hs) : namesOk (saveHitter hs tid fn ln new).1 := by
  unfold saveHitter
  rcases hfe : hs.find? (hitterKey tid fn ln) with _ | orig
  · simp only [hfe]
    by_cases hdup : hs.any (fun r => decide (r.first_name = fn) && decide (r.last_name = ln))
    · simp only [hdup, if_true]
      exact h
    · rw [if_neg hdup]
      refine List.pairwise_append.mpr ⟨h, List.pairwise_singleton _ _, ?_⟩
      intro a ha b hb
      rw [List.mem_singleton] at hb
      subst hb
      have hno := List.any_eq_false.mp (Bool.not_eq_true _ |>.mp hdup) a ha
      intro hcon
      apply hno
      rw [Bool.and_eq_true, decide_eq_true_eq, decide_eq_true_eq]
      exact ⟨hcon.1, hcon.2⟩
  · simp only [hfe]
    by_cases hz : zeroGuard orig.s.toList new.toList
    · simp only [hz, if_true]
      exact h
    · by_cases hch : hasChanges orig.s.toList new.toList
      · simp only [hz, hch, Bool.false_eq_true, if_false, if_true]
        unfold namesOk
        rw [List.pairwise_map]
        refine h.imp ?_
        intro a b hab
        rw [update_keeps_first, update_keeps_first, update_keeps_last, update_keeps_last]
        exact hab
      · simp only [hz, hch, Bool.false_eq_true, if_false]
        exact h

theorem updateP_keeps_team (tid : ℤ) (fn ln : String) (new : PitcherStats) (r : PitcherRow) :
    (if pitcherKey tid fn ln r then { r with s := new } else r).team_id = r.team_id := by
  split <;> rfl

theorem updateP_keeps_first (tid : ℤ) (fn ln : String) (new : PitcherStats) (r : PitcherRow) :
    (if pitcherKey tid fn ln r then { r with s := new } else r).first_name = r.first_name := by
  split <;> rfl

theorem updateP_keeps_last (tid : ℤ) (fn ln : String) (new : PitcherStats) (r : PitcherRow) :
    (if pitcherKey tid fn ln r then { r with s := new } else r).last_name = r.last_name := by
  split <;> rfl

theorem createTeam_pitchers (db : DB) (i : ℤ) (n : String) :
    (createTeam db i n).pitchers = db.pitchers := by
  unfold createTeam
  split <;> rfl

/-- No two pitcher rows share the (team, first name, last name) triple:
the key uniqueness the spec states for pitcher records. -/
def pitcherTripleOk (l : List PitcherRow) : Prop :=
  l.Pairwise (fun a b =>
    ¬(a.team_id = b.team_id ∧ a.first_name = b.first_name ∧ a.last_name = b.last_name))

/-- Every branch of the pitcher save preserves (team, first, last)
uniqueness: the guard/no-op branches leave the store alone, the UPDATE
branch rewrites only counters, and the INSERT branch fires only when the
(team, first, last) lookup found nothing. -/
theorem savePitcher_tripleOk (ps : List PitcherRow) (tid : ℤ) (fn ln : String)
    (new : PitcherStats) (h : pitcherTripleOk ps) :
    pitcherTripleOk (savePitcher ps tid fn ln new).1 := by
  unfold savePitcher
  rcases hfe : ps.find? (pitcherKey tid fn ln) with _ | orig
  · simp only [hfe]
    refine List.pairwise_append.mpr ⟨h, List.pairwise_singleton _ _, ?_⟩
    intro a ha b hb
    rw [List.mem_singleton] at hb
    subst hb
    have hno := List.find?_eq_none.mp hfe a ha
    intro hcon
    apply hno
    unfold pitcherKey
    simp [hcon.1, hcon.2.1, hcon.2.2]
  · simp only [hfe]
    by_cases hz : zeroGuard orig.s.toList new.toList
    · simp only [hz, if_true]
      exact h
    · by_cases hch : hasChanges orig.s.toList new.toList
      · simp only [hz, hch, Bool.false_eq_true, if_false, if_true]
        unfold pitcherTripleOk
        rw [List.pairwise_map]
        refine h.imp ?_
        intro a b hab
        rw [updateP_keeps_team, updateP_keeps_team, updateP_keeps_first, updateP_keeps_first,
          updateP_keeps_last, updateP_keeps_last]
        exact hab
      · simp only [hz, hch, Bool.false_eq_true, if_false]
        exact h

/-- C6 counterexample: the hitters schema enforces
`UNIQUE (first_name, last_name)` globally, so a second team cannot hold
a record for a player name already stored for another team — the INSERT
raises IntegrityError and the store is unchanged, refuting the claim's
"two different teams may each hold a record for the same-named player". -/
theorem c6_counterexample :
    saveHitter [⟨1, "John", "Smith", exStatsA⟩] 2 "John" "Smith" exStatsB
      = ([⟨1, "John", "Smith", exStatsA⟩], SaveAction.integrityError) := by
  decide

/-- C6 amended: over every reachable store, the claimed per-triple
uniqueness holds for both record types — no two batter records and no
two pitcher records share a (team, first, last) triple — and for batters
the store in fact enforces the stronger global invariant that no two
records share the (first, last) name pair at all, across teams. That
stronger batter constraint is what falsifies the claim's "in
particular": two different teams cannot each hold a batter record for
the same-named player. (The pitcher triple uniqueness holds because the
pitcher branch inserts only after its (team, first, last) lookup found
nothing; the pitchers table's own schema is absent from src/, so no
batter-style global name constraint is modelled for it.) -/
theorem c6_store_name_uniqueness :
    ∀ db : DB, Reachable db →
      namesOk db.hitters
      ∧ db.hitters.Pairwise (fun a b =>
          ¬(a.team_id = b.team_id ∧ a.first_name = b.first_name ∧
            a.last_name = b.last_name))
      ∧ pitcherTripleOk db.pitchers := by
  intro db h
  have hn : namesOk db.hitters := by
    induction h with
    | empty => exact List.Pairwise.nil
    | create newId name _ ih =>
      rw [createTeam_hitters]
      exact ih
    | saveH tid fn ln new _ ih => exact saveHitter_namesOk _ tid fn ln new ih
    | saveP tid fn ln new _ ih => exact ih
    | delete name _ ih =>
      rw [deleteTeam_hitters]
      exact ih
    | initDb _ _ => exact List.Pairwise.nil
  have hp : pitcherTripleOk db.pitchers := by
    clear hn
    induction h with
    | empty => exact List.Pairwise.nil
    | create newId name _ ih =>
      rw [createTeam_pitchers]
      exact ih
    | saveH tid fn ln new _ ih => exact ih
    | saveP tid fn ln new _ ih => exact savePitcher_tripleOk _ tid fn ln new ih
    | delete name _ ih =>
      rw [deleteTeam_pitchers]
      exact ih
    | initDb _ _ => exact List.Pairwise.nil
  exact ⟨hn, hn.imp (fun hab h3 => hab ⟨h3.2.1, h3.2.2⟩), hp⟩

/-- C6 witness: the store reached by saving John Smith (batter) and then
Cy Young (pitcher) into an empty store satisfies all three uniqueness
properties. -/
theorem c6_witness :
    namesOk (saveHitter [] 1 "John" "Smith" exStatsA).1
    ∧ (saveHitter [] 1 "John" "Smith" exStatsA).1.Pairwise (fun a b =>
        ¬(a.team_id = b.team_id ∧ a.first_name = b.first_name ∧
          a.last_name = b.last_name))
    ∧ pitcherTripleOk (savePitcher [] 1 "Cy" "Young" exPStatsA).1 :=
  c6_store_name_uniqueness
    ⟨[], (saveHitter [] 1 "John" "Smith" exStatsA).1,
     (savePitcher [] 1 "Cy" "Young" exPStatsA).1⟩
    (Reachable.saveP 1 "Cy" "Young" exPStatsA
      (Reachable.saveH 1 "John" "Smith" exStatsA Reachable.empty))

theorem teamHittersSorted_map_sum (db : DB) (tid : ℤ) (f : HitterRow → ℤ) :
    ((teamHittersSorted db tid).map f).sum
      = ((db.hitters.filter (fun r => decide (r.team_id = tid))).map f).sum := by
  unfold teamHittersSorted
  exact List.Perm.sum_eq (List.Perm.map f (pySorted_perm _ _))

/-- C4: the report's batter totals row is the field-wise sum over all of
the team's batter records (sorting is a permutation, so the sums equal
the sums over the raw team selection), and the team AVG/SLG strings are
recomputed from those summed counters, not averaged from per-player
rates; the (AB=10,H=3)/(AB=20,H=5) team displays ".267" (8/30), not the
".275" that averaging ".300" and ".250" would give. -/
theorem c4_totals_row_from_sums :
    (∀ (db : DB) (tid : ℤ),
      reportTotals db tid =
        ⟨((db.hitters.filter (fun r => decide (r.team_id = tid))).map (fun r => r.s.hits)).sum,
         ((db.hitters.filter (fun r => decide (r.team_id = tid))).map (fun r => r.s.ab)).sum,
         ((db.hitters.filter (fun r => decide (r.team_id = tid))).map (fun r => r.s.runs)).sum,
         ((db.hitters.filter (fun r => decide (r.team_id = tid))).map (fun r => r.s.doubles)).sum,
         ((db.hitters.filter (fun r => decide (r.team_id = tid))).map (fun r => r.s.triples)).sum,
         ((db.hitters.filter (fun r => decide (r.team_id = tid))).map (fun r => r.s.hr)).sum,
         ((db.hitters.filter (fun r => decide (r.team_id = tid))).map (fun r => r.s.rbi)).sum,
         ((db.hitters.filter (fun r => decide (r.team_id = tid))).map (fun r => r.s.k)).sum,
         ((db.hitters.filter (fun r => decide (r.team_id = tid))).map (fun r => r.s.bb)).sum,
         ((db.hitters.filter (fun r => decide (r.team_id = tid))).map (fun r => r.s.sb)).sum,
         ((db.hitters.filter (fun r => decide (r.team_id = tid))).map (fun r => r.s.cs)).sum,
         ((db.hitters.filter (fun r => decide (r.team_id = tid))).map (fun r => r.s.gidp)).sum,
         ((db.hitters.filter (fun r => decide (r.team_id = tid))).map (fun r => r.s.err)).sum⟩
      ∧ reportAvgStr db tid = rateStr3 (reportTotals db tid).hits (reportTotals db tid).ab
      ∧ reportSlgStr db tid = rateStr3
          ((reportTotals db tid).hits + (reportTotals db tid).doubles +
            2 * (reportTotals db tid).triples + 3 * (reportTotals db tid).hr)
          (reportTotals db tid).ab
      ∧ generateStats db tid = hittersHeader ++ reportRowsText db tid ++
          hittersSummary (reportAvgStr db tid) (reportSlgStr db tid) (reportTotals db tid))
    ∧ reportAvgStr exDbC4 7 = ".267"
    ∧ lstrip0 (pyFixed 3 (((3 : ℚ) / 10 + (5 : ℚ) / 20) / 2)) = ".275"
    ∧ (".267" : String) ≠ ".275" := by
  refine ⟨?_, ?_, ?_, by decide⟩
  · intro db tid
    refine ⟨?_, rfl, rfl, rfl⟩
    unfold reportTotals
    rw [hittersLoop_snd]
    simp only [zeroBT, zero_add, teamHittersSorted_map_sum]
  · have hh : (reportTotals exDbC4 7).hits = 8 := by decide
    have ha : (reportTotals exDbC4 7).ab = 30 := by decide
    unfold reportAvgStr
    rw [hh, ha, rateStr3_eval 8 30 (by decide)]
    decide
  · have harg : ((3 : ℚ) / 10 + (5 : ℚ) / 20) / 2 = ((11 : ℤ) : ℚ) / ((40 : ℤ) : ℚ) := by
      push_cast
      norm_num
    rw [harg, pyFixed_div 3 11 40 (by decide)]
    decide

/-- C8: the displayed batting average is produced by exactly the
"hits/at-bats rounded to three decimals, ties to even, leading zero
stripped" pipeline (`rheInt (1000*hits) ab` is the correctly rounded
milli-average: it is at least as close to `1000*hits/ab` as any other
integer), at-bats = 0 displays exactly ".000", and the listing renders
its AVG field with this very string. -/
theorem c8_displayed_average :
    (∀ hits ab : ℤ, 0 < ab →
      rateStr3 hits ab = lstrip0 (fmtScaled 3 (rheInt (1000 * hits) ab))
      ∧ ∀ m : ℤ,
        |1000 * ((hits : ℚ) / (ab : ℚ)) - ((rheInt (1000 * hits) ab : ℤ) : ℚ)|
          ≤ |1000 * ((hits : ℚ) / (ab : ℚ)) - (m : ℚ)|)
    ∧ (∀ hits : ℤ, rateStr3 hits 0 = ".000")
    ∧ (∀ (fn ln : String) (ab aba hits bb : ℤ), ¬ fn = "" → ¬ ln = "" →
        hitterListEntry fn ln ab aba hits bb
          = some (fn ++ " " ++ ln ++ "  ABR: " ++ toString (aba - (ab + bb))
              ++ "  AVG: " ++ rateStr3 hits ab)) := by
  refine ⟨?_, ?_, ?_⟩
  · intro hits ab hab
    refine ⟨rateStr3_eval hits ab hab, ?_⟩
    intro m
    have hq : (1000 : ℚ) * ((hits : ℚ) / (ab : ℚ))
        = ((1000 * hits : ℤ) : ℚ) / ((ab : ℤ) : ℚ) := by
      push_cast
      ring
    have hr := rhe_nearest (1000 * ((hits : ℚ) / (ab : ℚ))) m
    rw [hq, rhe_div _ _ hab] at hr
    rw [hq]
    exact hr
  · intro hits
    unfold rateStr3
    rw [if_neg (lt_irrefl 0)]
  · intro fn ln ab aba hits bb hfn hln
    unfold hitterListEntry
    rw [if_pos ⟨hfn, hln⟩]

/-- C8 witness: 11 hits in 40 at-bats displays ".275"; at-bats 0 displays
".000". -/
theorem c8_witness :
    rateStr3 11 40 = lstrip0 (fmtScaled 3 (rheInt (1000 * 11) 40))
    ∧ rateStr3 11 40 = ".275"
    ∧ rateStr3 7 0 = ".000" :=
  ⟨(c8_displayed_average.1 11 40 (by decide)).1,
   by rw [(c8_displayed_average.1 11 40 (by decide)).1]; decide,
   c8_displayed_average.2.1 7⟩

/-- C9 counterexample: a pitcher with 1 earned run over 12 innings has
ERA 0.75 < 1, yet the report's per-pitcher ERA cell is " 0.75" — the
leading zero is kept (only the team ERA of the totals row is stripped),
so the claim that every below-1 rate in the report, per-pitcher ERA
included, drops its leading zero is false. -/
theorem c9_counterexample :
    pitcherEraCell 1 12 = " 0.75"
    ∧ (1 : ℚ) / 12 * 9 < 1
    ∧ lstrip0 (pyFixed 2 ((1 : ℚ) / 12 * 9)) = ".75"
    ∧ pitcherEraCell 1 12 ≠ padLeft 5 (lstrip0 (pyFixed 2 ((1 : ℚ) / 12 * 9))) := by
  have hcast : (1 : ℚ) / 12 * 9 = ((9 : ℤ) : ℚ) / ((12 : ℤ) : ℚ) := by
    push_cast
    norm_num
  have hcell : pitcherEraCell 1 12 = " 0.75" := by
    rw [pitcherEraCell_eval 1 12 (by norm_num)]
    rw [show (((12 : ℚ).den : ℤ)) = 1 from rfl, show ((12 : ℚ).num) = 12 from rfl]
    decide
  have hstrip : lstrip0 (pyFixed 2 ((1 : ℚ) / 12 * 9)) = ".75" := by
    rw [hcast, pyFixed_div 2 9 12 (by decide)]
    decide
  refine ⟨hcell, by norm_num, hstrip, ?_⟩
  rw [hcell, hstrip]
  decide

/-- C9 amended: the per-pitcher ERA cell renders `f"{era:5.2f}"` with the
leading zero kept; with innings pitched > 0 its value is the correctly
rounded (ties to even) hundredths of earned-runs/innings×9, with
innings 0 it is " 0.00"; the stripped rendering ("0.00" when the
denominator is zero, leading zero dropped otherwise) applies to the
totals-row team ERA (and, per C8, to AVG/SLG). -/
theorem c9_era_rendering :
    (∀ (er : ℤ) (ip : ℚ), 0 < ip →
      pitcherEraCell er ip
        = padLeft 5 (fmtScaled 2 (rheInt (900 * er * (ip.den : ℤ)) ip.num))
      ∧ ∀ m : ℤ,
        |100 * ((er : ℚ) / ip * 9) - ((rheInt (900 * er * (ip.den : ℤ)) ip.num : ℤ) : ℚ)|
          ≤ |100 * ((er : ℚ) / ip * 9) - (m : ℚ)|)
    ∧ (∀ er : ℤ, pitcherEraCell er 0 = " 0.00")
    ∧ (∀ er : ℤ, eraStr er 0 = "0.00")
    ∧ (∀ (er : ℤ) (ip : ℚ), 0 < ip →
        eraStr er ip = lstrip0 (fmtScaled 2 (rheInt (900 * er * (ip.den : ℤ)) ip.num))) := by
  refine ⟨?_, pitcherEraCell_zero, eraStr_zero, fun er ip h => eraStr_eval er ip h⟩
  intro er ip hip
  refine ⟨pitcherEraCell_eval er ip hip, ?_⟩
  intro m
  have hnum : (0 : ℤ) < ip.num := Rat.num_pos.mpr hip
  have hq : (100 : ℚ) * ((er : ℚ) / ip * 9)
      = ((900 * er * (ip.den : ℤ) : ℤ) : ℚ) / ((ip.num : ℤ) : ℚ) := by
    rw [era_div_cast er ip hip]
    push_cast
    ring
  have hr := rhe_nearest (100 * ((er : ℚ) / ip * 9)) m
  rw [hq, rhe_div _ _ hnum] at hr
  rw [hq]
  exact hr

/-- C9 witness: ER 1 over 12 innings renders " 0.75" in the row cell;
zero innings renders " 0.00" (cell) and "0.00" (team totals). -/
theorem c9_witness :
    pitcherEraCell 1 12
      = padLeft 5 (fmtScaled 2 (rheInt (900 * 1 * (((12 : ℚ).den : ℤ))) (12 : ℚ).num))
    ∧ pitcherEraCell 1 0 = " 0.00"
    ∧ eraStr 1 0 = "0.00" :=
  ⟨(c9_era_rendering.1 1 12 (by norm_num)).1,
   c9_era_rendering.2.1 1,
   c9_era_rendering.2.2.1 1⟩

/-- C10: a record with an empty first or last name produces no row in
either report table (the row text equals that of the name-filtered
records) and no listing entry, while its counters still enter the totals
(which sum over every record of the team); in the concrete store the
batter totals show 8 hits though the only visible row has 3. -/
theorem c10_unnamed_records :
    (∀ (db : DB) (tid : ℤ),
      reportRowsText db tid =
        strConcat (((teamHittersSorted db tid).filter (fun r =>
          decide (r.first_name ≠ "" ∧ r.last_name ≠ ""))).map hitterRowString))
    ∧ (∀ (db : DB) (tid : ℤ),
      (reportTotals db tid).hits =
        ((db.hitters.filter (fun r => decide (r.team_id = tid))).map (fun r => r.s.hits)).sum)
    ∧ (∀ (db : DB) (tid : ℤ),
      pitcherReportRowsText db tid =
        strConcat (((teamPitchers db tid).filter (fun r =>
          decide (r.first_name ≠ "" ∧ r.last_name ≠ ""))).map pitcherRowString))
    ∧ (∀ (db : DB) (tid : ℤ),
      (pitcherReportTotals db tid).er =
        ((db.pitchers.filter (fun r => decide (r.team_id = tid))).map (fun r => r.s.er)).sum)
    ∧ (∀ (ln : String) (ab aba hits bb : ℤ), hitterListEntry "" ln ab aba hits bb = none)
    ∧ (∀ (fn : String) (ab aba hits bb : ℤ), hitterListEntry fn "" ab aba hits bb = none)
    ∧ (∀ (ln : String) (ip ipa : ℚ) (er : ℤ), pitcherListEntry "" ln ip ipa er = none)
    ∧ (∀ (fn : String) (ip ipa : ℚ) (er : ℤ), pitcherListEntry fn "" ip ipa er = none)
    ∧ (reportTotals exDbC10 3).hits = 8
    ∧ ((exDbC10.hitters.filter (fun r =>
        decide (r.team_id = 3) && (decide (r.first_name ≠ "") && decide (r.last_name ≠ "")))).map
          (fun r => r.s.hits)).sum = 3 := by
  refine ⟨?_, ?_, ?_, ?_, ?_, ?_, ?_, ?_, by decide, by decide⟩
  · intro db tid
    unfold reportRowsText
    rw [hittersLoop_fst, String.empty_append]
    exact strConcat_filter_if (fun r => r.first_name ≠ "" ∧ r.last_name ≠ "")
      hitterRowString (teamHittersSorted db tid)
  · intro db tid
    unfold reportTotals
    rw [hittersLoop_snd]
    simp only [zeroBT, zero_add, teamHittersSorted_map_sum]
  · intro db tid
    unfold pitcherReportRowsText
    rw [pitchersLoop_fst, String.empty_append]
    exact strConcat_filter_if (fun r => r.first_name ≠ "" ∧ r.last_name ≠ "")
      pitcherRowString (teamPitchers db tid)
  · intro db tid
    unfold pitcherReportTotals
    rw [pitchersLoop_snd]
    simp only [zeroPT, zero_add]
    unfold teamPitchers
    rfl
  · intro ln ab aba hits bb
    unfold hitterListEntry
    rw [if_neg (fun h => h.1 rfl)]
  · intro fn ab aba hits bb
    unfold hitterListEntry
    rw [if_neg (fun h => h.2 rfl)]
  · intro ln ip ipa er
    unfold pitcherListEntry
    rw [if_neg (fun h => h.1 rfl)]
  · intro fn ip ipa er
    unfold pitcherListEntry
    rw [if_neg (fun h => h.2 rfl)]

end StratStats
